import Mathlib

/-!
Verification of the SOP lifecycle engine
(`doc_system/auto_sop_agent.py` and `doc_system/sop_validator_refiner.py`)
against its natural-language specification.

The Python source is shallowly embedded: dataclasses become structures,
Python ints become `Nat`/`Int`, floats arising only from exact rational
arithmetic (success rates, quality scores, averages) become `ℚ`,
`subprocess` and wall-clock time become an explicit environment record,
and Python dict/list operations are modelled by association lists that
mirror insertion-order semantics.
-/

/-- Model of `SOPStatus` enum from `auto_sop_agent.py`. -/
inductive SOPStatus where
  | draft
  | validated
  | in_use
  | deprecated
  | archived
deriving Repr, DecidableEq

/-- Model of `StepStatus` enum from `auto_sop_agent.py`. -/
inductive StepStatus where
  | pending
  | running
  | completed
  | failed
  | skipped
deriving Repr, DecidableEq

/-- Model of `ValidationLevel` enum from `auto_sop_agent.py`. -/
inductive ValidationLevel where
  | permissive
  | moderate
  | strict
  | certified
deriving Repr, DecidableEq

/-- Model of `SOPStep` dataclass from `auto_sop_agent.py`. -/
structure SOPStep where
  step_number : Nat
  name : String
  description : String
  command : String
  component : String
  expected_output : Option String := none
  validation_check : Option String := none
  rollback_command : Option String := none
  timeout_seconds : Nat := 300
  retry_on_failure : Bool := true
  max_retries : Nat := 3
  dependencies : List Nat := []
  tags : List String := []
deriving Repr, DecidableEq

/-- Model of `SOPExecution` dataclass from `auto_sop_agent.py`.  The per-step
`output` dict (Python `Dict[int, str]`) is an insertion-ordered
association list. -/
structure SOPExecution where
  execution_id : String
  sop_id : String
  sop_version : String
  start_time : String
  end_time : Option String
  duration_seconds : ℚ
  status : StepStatus
  steps_completed : Nat
  steps_total : Nat
  success_rate : ℚ
  failed_steps : List Nat := []
  output : List (Nat × String) := []
  error : Option String := none
deriving Repr, DecidableEq

/-- Model of `SOPDefinition` dataclass from `auto_sop_agent.py`. -/
structure SOPDefinition where
  sop_id : String
  name : String
  version : String
  status : SOPStatus
  description : String
  component : String
  purpose : String
  created_date : String
  last_modified : String
  created_by : String
  last_modified_by : String
  steps : List SOPStep := []
  prerequisites : List String := []
  tags : List String := []
  validation_level : ValidationLevel := ValidationLevel.permissive
  execution_count : Nat := 0
  success_count : Nat := 0
  failure_count : Nat := 0
  average_duration : ℚ := 0
  content_hash : String := ""
deriving Repr, DecidableEq

/-- Python dict key-membership test (`dep in execution.output`). -/
def dictHasKey (d : List (Nat × String)) (k : Nat) : Bool :=
  d.any (fun p => p.1 = k)

/-- Python dict assignment `d[k] = v`: overwrite in place when the key is
present, append otherwise (insertion-order semantics). -/
def dictInsert (d : List (Nat × String)) (k : Nat) (v : String) : List (Nat × String) :=
  if d.any (fun p => p.1 = k) then
    d.map (fun p => if p.1 = k then (k, v) else p)
  else
    d ++ [(k, v)]

/-- Python truthiness of an `Optional[str]` (`if step.validation_check:`):
`None` and the empty string are falsy. -/
def optTruthy : Option String → Bool
  | none => false
  | some s => s ≠ ""

/-- Result of one `subprocess.run` invocation by the command collaborator:
a timeout, an exception, or a finished process with return code, stdout
and stderr. -/
inductive CmdResult where
  | timeout
  | err (msg : String)
  | finished (returncode : Int) (stdout : String) (stderr : String)
deriving Repr, DecidableEq

/-- The external environment consumed by `execute_sop`: the command
collaborator (`subprocess.run` with a command string and a timeout) and
the wall-clock values read during one execution. -/
structure CmdEnv where
  run : String → Nat → CmdResult
  timestampInt : Int
  startTime : String
  endTime : String
  duration : ℚ

/-- Model of `AutoSOPAgent._execute_step` (auto_sop_agent.py lines 364-411).
In dry-run mode it synthesizes a success without running anything;
otherwise it runs the command, then the optional `validation_check`
(only after a zero return code), mapping timeouts and exceptions to the
failure messages of the except clauses in the source. -/
def executeStep (env : CmdEnv) (step : SOPStep) (dryRun : Bool) : Bool × String :=
  if dryRun then
    (true, "[DRY RUN] " ++ step.command)
  else
    match env.run step.command step.timeout_seconds with
    | CmdResult.timeout =>
        (false, "Command timeout after " ++ toString step.timeout_seconds ++ "s")
    | CmdResult.err m => (false, "Execution error: " ++ m)
    | CmdResult.finished rc out errOut =>
        if optTruthy step.validation_check ∧ rc = 0 then
          match env.run (step.validation_check.getD "") 30 with
          | CmdResult.timeout =>
              (false, "Command timeout after " ++ toString step.timeout_seconds ++ "s")
          | CmdResult.err m => (false, "Execution error: " ++ m)
          | CmdResult.finished vrc _ verr =>
              if vrc ≠ 0 then (false, "Validation failed: " ++ verr)
              else (true, out)
        else if rc = 0 then (true, out)
        else (false, "Command failed: " ++ errOut)

/-- Accumulator of the step loop in `execute_sop`: `steps_completed`,
`failed_steps` and the local `step_outputs` dict. -/
structure ExecLoopState where
  stepsCompleted : Nat
  failedSteps : List Nat
  stepOutputs : List (Nat × String)
deriving Repr, DecidableEq

/-- The `for step in sop.steps` loop of `execute_sop` (auto_sop_agent.py
lines 306-330).  Note that, exactly as in the source, the dependency
check consults `execution.output` (the `execOutput` argument, which the
caller passes from the freshly created execution record, i.e. the empty
dict) and not the locally accumulated `stepOutputs`. -/
def execLoop (env : CmdEnv) (dryRun : Bool) (execOutput : List (Nat × String)) :
    List SOPStep → ExecLoopState → ExecLoopState
  | [], st => st
  | step :: rest, st =>
    if step.dependencies ≠ [] ∧ ¬ step.dependencies.all (fun d => dictHasKey execOutput d) then
      execLoop env dryRun execOutput rest
        { st with failedSteps := st.failedSteps ++ [step.step_number] }
    else
      let r := executeStep env step dryRun
      let st1 := { st with stepOutputs := dictInsert st.stepOutputs step.step_number r.2 }
      if r.1 then
        execLoop env dryRun execOutput rest
          { st1 with stepsCompleted := st1.stepsCompleted + 1 }
      else
        let st2 := { st1 with failedSteps := st1.failedSteps ++ [step.step_number] }
        if step.retry_on_failure then execLoop env dryRun execOutput rest st2
        else st2

/-- Model of `AutoSOPAgent.execute_sop` (auto_sop_agent.py lines 284-362) for a SOP
that exists in the registry: runs the step loop, computes the metrics of
the execution record, and updates the counters of the SOP and its rolling average
duration.  Returns the updated SOP together with the execution record;
the boolean result in the source is `execution.status = completed`.
Persistence (`_save_sop`) and logging are I/O and are not modelled. -/
def executeSop (env : CmdEnv) (sop : SOPDefinition) (dryRun : Bool) :
    SOPDefinition × SOPExecution :=
  let execution0 : SOPExecution :=
    { execution_id := sop.sop_id ++ "_" ++ toString env.timestampInt
      sop_id := sop.sop_id
      sop_version := sop.version
      start_time := env.startTime
      end_time := none
      duration_seconds := 0
      status := StepStatus.running
      steps_completed := 0
      steps_total := sop.steps.length
      success_rate := 0 }
  let st := execLoop env dryRun execution0.output sop.steps ⟨0, [], []⟩
  let successRate : ℚ :=
    if sop.steps.length > 0 then (st.stepsCompleted : ℚ) / (sop.steps.length : ℚ) * 100
    else 0
  let finalStatus :=
    if st.failedSteps = [] then StepStatus.completed else StepStatus.failed
  let execution :=
    { execution0 with
        output := st.stepOutputs
        failed_steps := st.failedSteps
        steps_completed := st.stepsCompleted
        success_rate := successRate
        status := finalStatus
        end_time := some env.endTime
        duration_seconds := env.duration }
  let n := sop.execution_count + 1
  let sop' :=
    { sop with
        execution_count := n
        success_count :=
          if finalStatus = StepStatus.completed then sop.success_count + 1
          else sop.success_count
        failure_count :=
          if finalStatus = StepStatus.completed then sop.failure_count
          else sop.failure_count + 1
        average_duration :=
          (sop.average_duration * ((n : ℚ) - 1) + env.duration) / (n : ℚ) }
  (sop', execution)

/-- A sequence of `execute_sop` calls against the same SOP, threading the
updated definition through (each pair is the environment of that call and
its `dry_run` flag). -/
def runAll (calls : List (CmdEnv × Bool)) (sop : SOPDefinition) : SOPDefinition :=
  calls.foldl (fun s c => (executeSop c.1 s c.2).1) sop

/-- Model of `ValidationFinding` dataclass from `sop_validator_refiner.py`. -/
structure ValidationFinding where
  finding_id : String
  sop_id : String
  finding_type : String
  category : String
  step_number : Option Nat
  message : String
  recommendation : String
  severity : Nat
  fixed : Bool := false
deriving Repr, DecidableEq

/-- One entry of `refinement_plan["priority_fixes"]`. -/
structure PlanFix where
  step : Option Nat
  issue : String
  action : String
deriving Repr, DecidableEq

/-- One entry of `refinement_plan["quality_improvements"]`. -/
structure PlanImprovement where
  step : Option Nat
  category : String
  suggestion : String
deriving Repr, DecidableEq

/-- Model of `refinement_plan` dict built by `SOPValidator._create_refinement_plan`. -/
structure RefinementPlan where
  priority_fixes : List PlanFix
  quality_improvements : List PlanImprovement
  timeline : String
deriving Repr, DecidableEq

/-- Model of `ValidationReport` dataclass from `sop_validator_refiner.py`. -/
structure ValidationReport where
  validation_id : String
  sop_id : String
  sop_version : String
  validation_date : String
  validator_name : String
  total_findings : Nat
  errors : Nat
  warnings : Nat
  infos : Nat
  suggestions : Nat
  overall_quality_score : ℚ
  is_approved : Bool
  findings : List ValidationFinding := []
  recommendations : List String := []
  refinement_plan : RefinementPlan
deriving Repr, DecidableEq

/-- The `execution_results` dict optionally passed to
`validate_sop_comprehensive` (only its `status` and `failed_steps`
entries are read, in `_check_execution`). -/
structure ExecResults where
  status : String
  failed_steps : List Nat
deriving Repr, DecidableEq

/-- Names of required top-level fields that are falsy, in the order
`_check_structure` iterates them (sop_validator_refiner.py lines 169-181). -/
def missingRequired (sop : SOPDefinition) : List String :=
  (if sop.sop_id = "" then ["sop_id"] else []) ++
  (if sop.name = "" then ["name"] else []) ++
  (if sop.version = "" then ["version"] else []) ++
  (if sop.description = "" then ["description"] else []) ++
  (if sop.component = "" then ["component"] else []) ++
  (if sop.steps = [] then ["steps"] else [])

/-- Model of `SOPValidator._check_structure` (sop_validator_refiner.py lines 164-211). -/
def structureFindings (sop : SOPDefinition) : List ValidationFinding :=
  ((missingRequired sop).map (fun fname =>
    { finding_id := "STR_001_" ++ sop.sop_id
      sop_id := sop.sop_id
      finding_type := "error"
      category := "structure"
      step_number := none
      message := "Missing required field: " ++ fname
      recommendation := "Add " ++ fname ++ " to SOP definition"
      severity := 5 })) ++
  (if sop.steps = [] then
    [{ finding_id := "STR_002_" ++ sop.sop_id
       sop_id := sop.sop_id
       finding_type := "error"
       category := "structure"
       step_number := none
       message := "SOP has no steps"
       recommendation := "Add at least one step to the SOP"
       severity := 5 }]
   else []) ++
  (sop.steps.enum.bind (fun p =>
    if p.2.step_number ≠ p.1 + 1 then
      [{ finding_id := "STR_003_" ++ sop.sop_id ++ "_step" ++ toString (p.1 + 1)
         sop_id := sop.sop_id
         finding_type := "error"
         category := "structure"
         step_number := some (p.1 + 1)
         message := "Step numbering is incorrect at position " ++ toString (p.1 + 1)
         recommendation := "Renumber step to " ++ toString (p.1 + 1)
         severity := 4 }]
    else []))

/-- Model of `SOPValidator._check_syntax` (sop_validator_refiner.py lines 213-260). -/
def syntaxFindings (sop : SOPDefinition) : List ValidationFinding :=
  sop.steps.bind (fun step =>
    (if step.command = "" then
      [{ finding_id := "SYN_001_" ++ sop.sop_id ++ "_step" ++ toString step.step_number
         sop_id := sop.sop_id
         finding_type := "error"
         category := "syntax"
         step_number := some step.step_number
         message := "Step has no command"
         recommendation := "Add a command to this step"
         severity := 5 }]
     else []) ++
    (if step.name = "" then
      [{ finding_id := "SYN_002_" ++ sop.sop_id ++ "_step" ++ toString step.step_number
         sop_id := sop.sop_id
         finding_type := "error"
         category := "syntax"
         step_number := some step.step_number
         message := "Step has no name"
         recommendation := "Add a descriptive name to this step"
         severity := 4 }]
     else []) ++
    (if step.description = "" then
      [{ finding_id := "SYN_003_" ++ sop.sop_id ++ "_step" ++ toString step.step_number
         sop_id := sop.sop_id
         finding_type := "warning"
         category := "syntax"
         step_number := some step.step_number
         message := "Step has no description"
         recommendation := "Add a description explaining what this step does"
         severity := 3 }]
     else []))

/-- Model of `SOPValidator._check_logic` (sop_validator_refiner.py lines 262-299).
Note both `if` branches fire independently for the same dependency value:
a nonexistent forward dependency produces two findings. -/
def logicFindings (sop : SOPDefinition) : List ValidationFinding :=
  sop.steps.bind (fun step =>
    step.dependencies.bind (fun dep =>
      (if ¬ sop.steps.any (fun s2 => s2.step_number = dep) then
        [{ finding_id := "LOG_001_" ++ sop.sop_id ++ "_step" ++ toString step.step_number
           sop_id := sop.sop_id
           finding_type := "error"
           category := "logic"
           step_number := some step.step_number
           message := "Dependency references non-existent step: " ++ toString dep
           recommendation := "Remove or fix reference to step " ++ toString dep
           severity := 5 }]
       else []) ++
      (if dep ≥ step.step_number then
        [{ finding_id := "LOG_002_" ++ sop.sop_id ++ "_step" ++ toString step.step_number
           sop_id := sop.sop_id
           finding_type := "error"
           category := "logic"
           step_number := some step.step_number
           message := "Circular or forward dependency: step " ++ toString step.step_number ++
             " depends on step " ++ toString dep
           recommendation := "Reorder steps to remove circular dependencies"
           severity := 5 }]
       else [])))

/-- Model of `SOPValidator._check_efficiency` (sop_validator_refiner.py lines 301-346). -/
def efficiencyFindings (sop : SOPDefinition) : List ValidationFinding :=
  (if sop.steps.length > 50 then
    [{ finding_id := "EFF_001_" ++ sop.sop_id
       sop_id := sop.sop_id
       finding_type := "warning"
       category := "efficiency"
       step_number := none
       message := "SOP has " ++ toString sop.steps.length ++ " steps, which may be too many"
       recommendation := "Consider breaking into smaller SOPs"
       severity := 2 }]
   else []) ++
  (if sop.steps.length < 1 then
    [{ finding_id := "EFF_002_" ++ sop.sop_id
       sop_id := sop.sop_id
       finding_type := "info"
       category := "efficiency"
       step_number := none
       message := "SOP has very few steps"
       recommendation := "Consider if this is complex enough to warrant a SOP"
       severity := 1 }]
   else []) ++
  sop.steps.bind (fun step =>
    if step.timeout_seconds > 3600 then
      [{ finding_id := "EFF_003_" ++ sop.sop_id ++ "_step" ++ toString step.step_number
         sop_id := sop.sop_id
         finding_type := "suggestion"
         category := "efficiency"
         step_number := some step.step_number
         message := "Step has very long timeout: " ++ toString step.timeout_seconds ++ "s"
         recommendation := "Review if timeout can be reduced"
         severity := 1 }]
    else [])

/-- Model of `SOPValidator._check_clarity` (sop_validator_refiner.py lines 348-394). -/
def clarityFindings (sop : SOPDefinition) : List ValidationFinding :=
  (if sop.description.length < 20 then
    [{ finding_id := "CLR_001_" ++ sop.sop_id
       sop_id := sop.sop_id
       finding_type := "suggestion"
       category := "clarity"
       step_number := none
       message := "SOP description is too short"
       recommendation := "Provide a more detailed description of the SOP purpose"
       severity := 1 }]
   else []) ++
  (if sop.prerequisites = [] then
    [{ finding_id := "CLR_002_" ++ sop.sop_id
       sop_id := sop.sop_id
       finding_type := "suggestion"
       category := "clarity"
       step_number := none
       message := "SOP has no prerequisites listed"
       recommendation := "Add prerequisites section if applicable"
       severity := 1 }]
   else []) ++
  sop.steps.bind (fun step =>
    if step.description.length < 10 then
      [{ finding_id := "CLR_003_" ++ sop.sop_id ++ "_step" ++ toString step.step_number
         sop_id := sop.sop_id
         finding_type := "suggestion"
         category := "clarity"
         step_number := some step.step_number
         message := "Step description is too short"
         recommendation := "Provide more detail about what this step accomplishes"
         severity := 1 }]
    else [])

/-- Model of `SOPValidator._check_execution` (sop_validator_refiner.py lines 396-414). -/
def executionFindings (sop : SOPDefinition) (er : ExecResults) : List ValidationFinding :=
  if er.status = "FAILED" then
    er.failed_steps.map (fun n =>
      { finding_id := "EXE_001_" ++ sop.sop_id ++ "_step" ++ toString n
        sop_id := sop.sop_id
        finding_type := "error"
        category := "logic"
        step_number := some n
        message := "Step " ++ toString n ++ " failed during execution"
        recommendation := "Review and fix the command in this step"
        severity := 5 })
  else []

/-- Binary Python `max` on rationals (`max(0, quality_score)`). -/
def pyMaxQ (a b : ℚ) : ℚ := if a < b then b else a

/-- The concatenation of the five check categories plus the optional
execution check, in the order `validate_sop_comprehensive` runs them. -/
def collectFindings (sop : SOPDefinition) (executionResults : Option ExecResults) :
    List ValidationFinding :=
  structureFindings sop ++ syntaxFindings sop ++ logicFindings sop ++
  efficiencyFindings sop ++ clarityFindings sop ++
  (match executionResults with
   | some er => executionFindings sop er
   | none => [])

/-- One iteration of the quality-score loop (sop_validator_refiner.py
lines 118-125): errors deduct `severity*2`, warnings `severity*1`,
suggestions `0.5`, info nothing. -/
def findingDeduct (q : ℚ) (f : ValidationFinding) : ℚ :=
  if f.finding_type = "error" then q - (f.severity : ℚ) * 2
  else if f.finding_type = "warning" then q - (f.severity : ℚ) * 1
  else if f.finding_type = "suggestion" then q - 1 / 2
  else q

/-- The quality score: 100 minus the deductions, floored at 0
(`max(0, quality_score)`). -/
def qualityScoreOf (findings : List ValidationFinding) : ℚ :=
  pyMaxQ 0 (findings.foldl findingDeduct 100)

/-- Model of `SOPValidator._generate_recommendations` (sop_validator_refiner.py
lines 416-432). -/
def generateRecommendations (findings : List ValidationFinding) : List String :=
  let errs := findings.filter (fun f => f.finding_type = "error")
  let warns := findings.filter (fun f => f.finding_type = "warning")
  let suggs := findings.filter (fun f => f.finding_type = "suggestion")
  (if errs ≠ [] then
    ["Fix " ++ toString errs.length ++ " critical errors before using SOP"] else []) ++
  (if warns ≠ [] then
    ["Review " ++ toString warns.length ++ " warnings for quality improvement"] else []) ++
  (if suggs ≠ [] then
    ["Consider " ++ toString suggs.length ++ " suggestions for optimization"] else [])

/-- Model of `SOPValidator._create_refinement_plan` (sop_validator_refiner.py
lines 434-456). -/
def createRefinementPlan (findings : List ValidationFinding) : RefinementPlan :=
  { priority_fixes :=
      (findings.filter (fun f => f.finding_type = "error")).map (fun f =>
        { step := f.step_number, issue := f.message, action := f.recommendation })
    quality_improvements :=
      (findings.filter (fun f => f.finding_type ≠ "error")).map (fun f =>
        { step := f.step_number, category := f.category, suggestion := f.recommendation })
    timeline := "immediate for errors, next iteration for suggestions" }

/-- Model of `SOPValidator.validate_sop_comprehensive` (sop_validator_refiner.py
lines 83-162).  `ts` is the timestamp string interpolated into the
validation id and `now` the validation date (wall-clock reads). -/
def validateSopComprehensive (validatorName : String) (sop : SOPDefinition)
    (executionResults : Option ExecResults) (ts now : String) : ValidationReport :=
  let findings := collectFindings sop executionResults
  let errorCount := findings.countP (fun f => f.finding_type == "error")
  let warningCount := findings.countP (fun f => f.finding_type == "warning")
  let infoCount := findings.countP (fun f => f.finding_type == "info")
  let suggestionCount := findings.countP (fun f => f.finding_type == "suggestion")
  let qualityScore : ℚ := qualityScoreOf findings
  let approved := (errorCount == 0) && decide ((80 : ℚ) ≤ qualityScore)
  { validation_id := "val_" ++ sop.sop_id ++ "_" ++ ts
    sop_id := sop.sop_id
    sop_version := sop.version
    validation_date := now
    validator_name := validatorName
    total_findings := findings.length
    errors := errorCount
    warnings := warningCount
    infos := infoCount
    suggestions := suggestionCount
    overall_quality_score := qualityScore
    is_approved := approved
    findings := findings
    recommendations := generateRecommendations findings
    refinement_plan := createRefinementPlan findings }

/-- Hex digit character (lowercase), as produced by Python `hexdigest`
and `\uXXXX` escapes. -/
def hexDigit (n : Nat) : Char :=
  if n < 10 then Char.ofNat (48 + n) else Char.ofNat (87 + n)

/-- Four-digit lowercase hex rendering of a code unit, for `\uXXXX`. -/
def hex4 (n : Nat) : String :=
  String.mk [hexDigit (n / 4096 % 16), hexDigit (n / 256 % 16),
             hexDigit (n / 16 % 16), hexDigit (n % 16)]

/-- Model of `json.dumps` escaping of one character with the default
`ensure_ascii=True`: short escapes for the usual control characters,
`\uXXXX` for other control and all non-ASCII characters (surrogate
pairs above the BMP), the character itself otherwise. -/
def jsonEscapeChar (c : Char) : String :=
  let n := c.toNat
  if c = '"' then "\\\""
  else if c = '\\' then "\\\\"
  else if c = '\n' then "\\n"
  else if c = '\t' then "\\t"
  else if c = '\r' then "\\r"
  else if n = 8 then "\\b"
  else if n = 12 then "\\f"
  else if n < 32 then "\\u" ++ hex4 n
  else if n < 127 then String.singleton c
  else if n < 65536 then "\\u" ++ hex4 n
  else
    "\\u" ++ hex4 (55296 + (n - 65536) / 1024) ++ "\\u" ++ hex4 (56320 + (n - 65536) % 1024)

/-- JSON string literal (`json.dumps` of a `str`). -/
def jsonString (s : String) : String :=
  "\"" ++ String.join (s.data.map jsonEscapeChar) ++ "\""

/-- JSON rendering of an `Optional[str]` field (`None` becomes `null`). -/
def jsonOptString : Option String → String
  | none => "null"
  | some s => jsonString s

/-- JSON rendering of a Python bool. -/
def jsonBool : Bool → String
  | true => "true"
  | false => "false"

/-- JSON rendering of a list of ints with the default `", "` separator. -/
def jsonNatList (l : List Nat) : String :=
  "[" ++ String.intercalate ", " (l.map toString) ++ "]"

/-- JSON rendering of a list of strings with the default `", "` separator. -/
def jsonStrList (l : List String) : String :=
  "[" ++ String.intercalate ", " (l.map jsonString) ++ "]"

/-- Model of `json.dumps(asdict(step), sort_keys=True)`: the 13 `SOPStep` fields in
sorted key order with the default `", "` / `": "` separators. -/
def stepJson (s : SOPStep) : String :=
  "\x7b" ++
  "\"command\": " ++ jsonString s.command ++ ", " ++
  "\"component\": " ++ jsonString s.component ++ ", " ++
  "\"dependencies\": " ++ jsonNatList s.dependencies ++ ", " ++
  "\"description\": " ++ jsonString s.description ++ ", " ++
  "\"expected_output\": " ++ jsonOptString s.expected_output ++ ", " ++
  "\"max_retries\": " ++ toString s.max_retries ++ ", " ++
  "\"name\": " ++ jsonString s.name ++ ", " ++
  "\"retry_on_failure\": " ++ jsonBool s.retry_on_failure ++ ", " ++
  "\"rollback_command\": " ++ jsonOptString s.rollback_command ++ ", " ++
  "\"step_number\": " ++ toString s.step_number ++ ", " ++
  "\"tags\": " ++ jsonStrList s.tags ++ ", " ++
  "\"timeout_seconds\": " ++ toString s.timeout_seconds ++ ", " ++
  "\"validation_check\": " ++ jsonOptString s.validation_check ++
  "\x7d"

/-- Model of `json.dumps([asdict(s) for s in steps], sort_keys=True)` — the exact
string hashed by `AutoSOPAgent._compute_hash`. -/
def stepsJson (steps : List SOPStep) : String :=
  "[" ++ String.intercalate ", " (steps.map stepJson) ++ "]"

/-- UTF-8 encoding of one character (Python `str.encode()`). -/
def charUtf8 (c : Char) : List Nat :=
  let n := c.toNat
  if n < 128 then [n]
  else if n < 2048 then [192 + n / 64, 128 + n % 64]
  else if n < 65536 then [224 + n / 4096, 128 + n / 64 % 64, 128 + n % 64]
  else [240 + n / 262144, 128 + n / 4096 % 64, 128 + n / 64 % 64, 128 + n % 64]

/-- UTF-8 encoding of a string as a byte list. -/
def utf8Bytes (s : String) : List Nat :=
  s.data.foldr (fun c acc => charUtf8 c ++ acc) []

/-- Truncation to a 32-bit word. -/
def w32 (n : Nat) : Nat := n % 4294967296

/-- 32-bit right rotation. -/
def rotr32 (x n : Nat) : Nat := w32 (x / 2 ^ n + x % 2 ^ n * 2 ^ (32 - n))

/-- SHA-256 σ0. -/
def smallSigma0 (x : Nat) : Nat := rotr32 x 7 ^^^ rotr32 x 18 ^^^ x / 2 ^ 3

/-- SHA-256 σ1. -/
def smallSigma1 (x : Nat) : Nat := rotr32 x 17 ^^^ rotr32 x 19 ^^^ x / 2 ^ 10

/-- SHA-256 Σ0. -/
def bigSigma0 (x : Nat) : Nat := rotr32 x 2 ^^^ rotr32 x 13 ^^^ rotr32 x 22

/-- SHA-256 Σ1. -/
def bigSigma1 (x : Nat) : Nat := rotr32 x 6 ^^^ rotr32 x 11 ^^^ rotr32 x 25

/-- SHA-256 round constants. -/
def sha256K : List Nat :=
  [1116352408, 1899447441, 3049323471, 3921009573,
   961987163, 1508970993, 2453635748, 2870763221,
   3624381080, 310598401, 607225278, 1426881987,
   1925078388, 2162078206, 2614888103, 3248222580,
   3835390401, 4022224774, 264347078, 604807628,
   770255983, 1249150122, 1555081692, 1996064986,
   2554220882, 2821834349, 2952996808, 3210313671,
   3336571891, 3584528711, 113926993, 338241895,
   666307205, 773529912, 1294757372, 1396182291,
   1695183700, 1986661051, 2177026350, 2456956037,
   2730485921, 2820302411, 3259730800, 3345764771,
   3516065817, 3600352804, 4094571909, 275423344,
   430227734, 506948616, 659060556, 883997877,
   958139571, 1322822218, 1537002063, 1747873779,
   1955562222, 2024104815, 2227730452, 2361852424,
   2428436474, 2756734187, 3204031479, 3329325298]

/-- SHA-256 initial hash state. -/
def sha256H0 : List Nat :=
  [1779033703, 3144134277, 1013904242, 2773480762,
   1359893119, 2600822924, 528734635, 1541459225]

/-- Big-endian 8-byte rendering of the message bit length. -/
def be64 (n : Nat) : List Nat :=
  [n / 2 ^ 56 % 256, n / 2 ^ 48 % 256, n / 2 ^ 40 % 256, n / 2 ^ 32 % 256,
   n / 2 ^ 24 % 256, n / 2 ^ 16 % 256, n / 2 ^ 8 % 256, n % 256]

/-- SHA-256 padding: `0x80`, zeros to 56 mod 64, then the bit length. -/
def sha256Pad (msg : List Nat) : List Nat :=
  let z := (56 + 64 - (msg.length + 1) % 64) % 64
  msg ++ [128] ++ List.replicate z 0 ++ be64 (msg.length * 8)

/-- Split a byte list into 64-byte blocks. -/
def chunks64 (l : List Nat) : List (List Nat) :=
  if h : l = [] then []
  else l.take 64 :: chunks64 (l.drop 64)
termination_by l.length
decreasing_by
  have hp : 0 < l.length := List.length_pos.mpr h
  simp only [List.length_drop]
  omega

/-- The first 16 schedule words of a block (big-endian 4-byte groups). -/
def words16 (block : List Nat) : List Nat :=
  (List.range 16).map (fun i =>
    block.getD (4 * i) 0 * 16777216 + block.getD (4 * i + 1) 0 * 65536 +
    block.getD (4 * i + 2) 0 * 256 + block.getD (4 * i + 3) 0)

/-- Extension of the message schedule from 16 to 64 words. -/
def extendSchedule (w : List Nat) : List Nat :=
  (List.range 48).foldl (fun ws _ =>
    let n := ws.length
    ws ++ [w32 (smallSigma1 (ws.getD (n - 2) 0) + ws.getD (n - 7) 0 +
                smallSigma0 (ws.getD (n - 15) 0) + ws.getD (n - 16) 0)]) w

/-- One SHA-256 compression round on the state `[a,b,c,d,e,f,g,h]`. -/
def compressStep (st : List Nat) (kw : Nat × Nat) : List Nat :=
  match st with
  | [a, b, c, d, e, f, g, hh] =>
    let ch := (e &&& f) ^^^ ((4294967295 ^^^ e) &&& g)
    let maj := (a &&& b) ^^^ (a &&& c) ^^^ (b &&& c)
    let t1 := w32 (hh + bigSigma1 e + ch + kw.1 + kw.2)
    let t2 := w32 (bigSigma0 a + maj)
    [w32 (t1 + t2), a, b, c, w32 (d + t1), e, f, g]
  | _ => st

/-- SHA-256 processing of one 64-byte block. -/
def processBlock (h : List Nat) (block : List Nat) : List Nat :=
  let w := extendSchedule (words16 block)
  let st := (sha256K.zip w).foldl compressStep h
  (h.zip st).map (fun p => w32 (p.1 + p.2))

/-- SHA-256 digest of a byte list, as eight 32-bit words. -/
def sha256Words (msg : List Nat) : List Nat :=
  (chunks64 (sha256Pad msg)).foldl processBlock sha256H0

/-- Lowercase 8-hex-digit rendering of one 32-bit word. -/
def hex8 (n : Nat) : String :=
  String.mk ((List.range 8).map (fun i => hexDigit (n / 16 ^ (7 - i) % 16)))

/-- Model of `hashlib.sha256(...).hexdigest()` of a byte list. -/
def sha256Hex (msg : List Nat) : String :=
  String.join ((sha256Words msg).map hex8)

/-- Model of `AutoSOPAgent._compute_hash` (auto_sop_agent.py lines 591-594): the
SHA-256 hex digest of the sorted-keys JSON dump of the step list.  A pure
function of the ordered step sequence alone. -/
def computeHash (steps : List SOPStep) : String :=
  sha256Hex (utf8Bytes (stepsJson steps))

/-- One `key: value` entry of a `refine_sop` changes dict.  Each
constructor names an existing `SOPStep` attribute (for which the Python check
`hasattr(step, key)` is true and `setattr` assigns), and `unknownField`
stands for any key that is not an attribute of `SOPStep` (for which
`hasattr` is false and the entry is skipped). -/
inductive FieldUpdate where
  | setStepNumber (v : Nat)
  | setName (v : String)
  | setDescription (v : String)
  | setCommand (v : String)
  | setComponent (v : String)
  | setExpectedOutput (v : Option String)
  | setValidationCheck (v : Option String)
  | setRollbackCommand (v : Option String)
  | setTimeoutSeconds (v : Nat)
  | setRetryOnFailure (v : Bool)
  | setMaxRetries (v : Nat)
  | setDependencies (v : List Nat)
  | setTags (v : List String)
  | unknownField (key : String)
deriving Repr, DecidableEq

/-- The `if hasattr(step, key): setattr(step, key, value)` body of the
update loop in `refine_sop` (auto_sop_agent.py lines 489-492). -/
def applyChange (s : SOPStep) : FieldUpdate → SOPStep
  | FieldUpdate.setStepNumber v => { s with step_number := v }
  | FieldUpdate.setName v => { s with name := v }
  | FieldUpdate.setDescription v => { s with description := v }
  | FieldUpdate.setCommand v => { s with command := v }
  | FieldUpdate.setComponent v => { s with component := v }
  | FieldUpdate.setExpectedOutput v => { s with expected_output := v }
  | FieldUpdate.setValidationCheck v => { s with validation_check := v }
  | FieldUpdate.setRollbackCommand v => { s with rollback_command := v }
  | FieldUpdate.setTimeoutSeconds v => { s with timeout_seconds := v }
  | FieldUpdate.setRetryOnFailure v => { s with retry_on_failure := v }
  | FieldUpdate.setMaxRetries v => { s with max_retries := v }
  | FieldUpdate.setDependencies v => { s with dependencies := v }
  | FieldUpdate.setTags v => { s with tags := v }
  | FieldUpdate.unknownField _ => s

/-- In-place mutation of the first list element whose `step_number` is
`n` (`next((s for s in sop.steps if s.step_number == step_num), None)`
followed by the `setattr` loop); when no element matches, the list is
returned unchanged — mirroring the silent skip in the source. -/
def updateFirst (steps : List SOPStep) (n : Nat) (f : SOPStep → SOPStep) : List SOPStep :=
  match steps with
  | [] => []
  | s :: rest => if s.step_number = n then f s :: rest else s :: updateFirst rest n f

/-- Python `version.split('.')` on the underlying character list:
splitting an empty string yields one empty part, and every dot starts a
new part. -/
def splitOnDot (cs : List Char) : List (List Char) :=
  match cs with
  | [] => [[]]
  | c :: rest =>
    let r := splitOnDot rest
    if c = '.' then [] :: r
    else
      match r with
      | [] => [[c]]
      | h :: t => (c :: h) :: t

/-- The digit value of a character, when it is a decimal digit. -/
def charDigit (c : Char) : Option Nat :=
  if 48 ≤ c.toNat ∧ c.toNat ≤ 57 then some (c.toNat - 48) else none

/-- Python `int(s)` restricted to plain nonempty digit strings (the form
every well-formed 3-part version component takes); anything else models
the `ValueError` path. -/
def digitsToNat (cs : List Char) : Option Nat :=
  if cs = [] then none
  else
    cs.foldl (fun acc c =>
      match acc, charDigit c with
      | some a, some d => some (a * 10 + d)
      | _, _ => none) (some 0)

/-- Model of the dot join applied to the version parts, on character lists. -/
def joinDots (ps : List (List Char)) : List Char :=
  match ps with
  | [] => []
  | [p] => p
  | p :: rest => p ++ '.' :: joinDots rest

/-- The version bump of `refine_sop` (auto_sop_agent.py lines 495-497):
`version.split('.')`, increment the integer value of component 2, join.
`none` models the `IndexError`/`ValueError` the source raises (and then
catches) on a malformed version string. -/
def bumpPatch (v : String) : Option String :=
  let parts := splitOnDot v.data
  match parts.get? 2 with
  | none => none
  | some p2 =>
    match digitsToNat p2 with
    | none => none
    | some k => some (String.mk (joinDots (parts.set 2 (toString (k + 1)).data)))

/-- Model of `AutoSOPAgent.refine_sop` (auto_sop_agent.py lines 477-516) for a SOP
that exists in the registry: applies each updates entry to the first step
with the targeted `step_number` (entries whose key matches no step are
silently skipped), then bumps the patch version, stamps the metadata and
recomputes the content hash.  Returns the `(success, message)`
pair together with the (in-place mutated) SOP; on a malformed version
string the steps have already been mutated when the exception fires, and
the hash and metadata are left untouched. -/
def refineSop (sop : SOPDefinition) (updates : List (Nat × List FieldUpdate))
    (now refinedBy : String) : Bool × String × SOPDefinition :=
  let newSteps :=
    updates.foldl (fun st p => updateFirst st p.1 (fun s => p.2.foldl applyChange s)) sop.steps
  match bumpPatch sop.version with
  | none => (false, "Failed to refine SOP", { sop with steps := newSteps })
  | some v' =>
    (true, "SOP refined to v" ++ v',
      { sop with
          steps := newSteps
          version := v'
          last_modified := now
          last_modified_by := refinedBy
          content_hash := computeHash newSteps })

/-- Model of `AutoSOPAgent._validate_structure` (auto_sop_agent.py lines 545-556). -/
def validateStructureOk (sop : SOPDefinition) : Bool :=
  (sop.sop_id ≠ "" && sop.name ≠ "" && sop.steps ≠ ([] : List SOPStep)) &&
  sop.steps.enum.all (fun p => p.2.step_number = p.1 + 1)

/-- Model of `AutoSOPAgent._validate_syntax` (auto_sop_agent.py lines 558-564). -/
def validateSyntaxOk (sop : SOPDefinition) : Bool :=
  sop.steps.all (fun step => step.command ≠ "" && step.name ≠ "")

/-- Model of `AutoSOPAgent._validate_dependencies` (auto_sop_agent.py lines 566-575). -/
def validateDependenciesOk (sop : SOPDefinition) : Bool :=
  sop.steps.all (fun step =>
    step.dependencies.all (fun dep =>
      sop.steps.any (fun s2 => s2.step_number = dep) && decide (dep < step.step_number)))

/-- Model of `AutoSOPAgent._validate_completeness` (auto_sop_agent.py lines 577-589). -/
def validateCompletenessOk (sop : SOPDefinition) : Bool :=
  sop.steps.all (fun step => step.description ≠ "")

/-- Model of `AutoSOPAgent.validate_sop` (auto_sop_agent.py lines 423-464) for a
SOP that exists in the registry: the four boolean checks plus the dry-run
execution self-test; `is_valid` requires all of them.  Returns
`(is_valid, sop after the dry run and possible promotion to validated)`. -/
def validateSopAgent (env : CmdEnv) (sop : SOPDefinition) : Bool × SOPDefinition :=
  let allChecksPass :=
    validateStructureOk sop && validateSyntaxOk sop &&
    validateDependenciesOk sop && validateCompletenessOk sop
  let r := executeSop env sop true
  let execSuccess := r.2.status = StepStatus.completed
  let isValid := allChecksPass && execSuccess
  (isValid, if isValid then { r.1 with status := SOPStatus.validated } else r.1)

/-- Python slicing `history[-limit:]` for a non-negative `limit`: the last
`limit` elements, except that `limit = 0` yields `history[0:]`, i.e. the
whole list. -/
def pyLastSlice {α : Type} (xs : List α) (limit : Nat) : List α :=
  if limit = 0 then xs else xs.drop (xs.length - limit)

/-- The records matching the optional `sop_id` filter of
`get_execution_history` (`if sop_id:` — `None` and `""` disable the
filter). -/
def matchingRecords (history : List SOPExecution) (sopId : Option String) :
    List SOPExecution :=
  match sopId with
  | some i => if i = "" then history else history.filter (fun e => e.sop_id = i)
  | none => history

/-- Model of `AutoSOPAgent.get_execution_history` (auto_sop_agent.py lines
668-683): filter by `sop_id`, then take `history[-limit:]`. -/
def getExecutionHistory (history : List SOPExecution) (sopId : Option String)
    (limit : Nat) : List SOPExecution :=
  pyLastSlice (matchingRecords history sopId) limit

/-- Field-for-field equality of two steps (the specified "identical
step sequences (field-for-field)"). -/
def stepFieldsEq (s t : SOPStep) : Prop :=
  s.step_number = t.step_number ∧ s.name = t.name ∧ s.description = t.description ∧
  s.command = t.command ∧ s.component = t.component ∧
  s.expected_output = t.expected_output ∧ s.validation_check = t.validation_check ∧
  s.rollback_command = t.rollback_command ∧ s.timeout_seconds = t.timeout_seconds ∧
  s.retry_on_failure = t.retry_on_failure ∧ s.max_retries = t.max_retries ∧
  s.dependencies = t.dependencies ∧ s.tags = t.tags

instance (s t : SOPStep) : Decidable (stepFieldsEq s t) := by
  unfold stepFieldsEq
  infer_instance

/-- An environment whose command collaborator always succeeds (its
contents are irrelevant for dry runs, which never consult it). -/
def dummyEnv : CmdEnv :=
  { run := fun _ _ => CmdResult.finished 0 "" ""
    timestampInt := 1700000000
    startTime := "2024-01-01T00:00:00"
    endTime := "2024-01-01T00:00:01"
    duration := 1 }

/-- An environment whose command collaborator always fails with return
code 1. -/
def failEnv : CmdEnv :=
  { run := fun _ _ => CmdResult.finished 1 "" "boom"
    timestampInt := 1700000000
    startTime := "2024-01-01T00:00:00"
    endTime := "2024-01-01T00:00:01"
    duration := 1 }

/-- Step 1 of Scenario A: `cmd:"echo 1"`, adequate
description, no dependencies. -/
def stepA1 : SOPStep :=
  { step_number := 1
    name := "Echo one"
    description := "Print the number one to stdout"
    command := "echo 1"
    component := "demo" }

/-- Step 2 of Scenario A: `cmd:"echo 2"`, adequate
description, depends on step 1. -/
def stepA2 : SOPStep :=
  { step_number := 2
    name := "Echo two"
    description := "Print the number two to stdout"
    command := "echo 2"
    component := "demo"
    dependencies := [1] }

/-- The Scenario A SOP with every clarity criterion met as well: a
top-level description of at least 20 characters and a nonempty
prerequisites list. -/
def sopA : SOPDefinition :=
  { sop_id := "scenario_a"
    name := "Scenario A"
    version := "1.0.0"
    status := SOPStatus.draft
    description := "Demonstration SOP that echoes two numbers"
    component := "demo"
    purpose := "demo"
    created_date := "2024-01-01T00:00:00"
    last_modified := "2024-01-01T00:00:00"
    created_by := "agent"
    last_modified_by := "agent"
    steps := [stepA1, stepA2]
    prerequisites := ["a POSIX shell"]
    tags := ["demo"] }

/-- The Scenario A SOP exactly as the create operation of the engine builds it:
identical steps with adequate step descriptions, but an empty
prerequisites list (`create_sop_from_operations` always sets
`prerequisites=[]`). -/
def sopA0 : SOPDefinition :=
  { sopA with prerequisites := [] }

/-- Step 2 of Scenario B: declares `deps:[3]`, a nonexistent
forward step. -/
def stepB2 : SOPStep :=
  { stepA2 with dependencies := [3] }

/-- The Scenario B SOP: identical to `sopA` except step 2 depends on the
nonexistent forward step 3. -/
def sopScenB : SOPDefinition :=
  { sopA with sop_id := "scenario_b", steps := [stepA1, stepB2] }

/-- Step 1 of Scenario C: its command fails and
`retry_on_failure = false`. -/
def stepC1 : SOPStep :=
  { step_number := 1
    name := "Failing step"
    description := "A step whose command exits nonzero"
    command := "false"
    component := "demo"
    retry_on_failure := false }

/-- Step 2 of Scenario C (never reached). -/
def stepC2 : SOPStep :=
  { step_number := 2
    name := "Echo two"
    description := "Print the number two to stdout"
    command := "echo 2"
    component := "demo" }

/-- The Scenario C SOP: two steps, the first failing with
`retry_on_failure = false`. -/
def sopC : SOPDefinition :=
  { sopA with sop_id := "scenario_c", steps := [stepC1, stepC2] }

/-- A one-step SOP used to exercise `refine_sop`. -/
def sopOne : SOPDefinition :=
  { sopA with sop_id := "one_step", steps := [stepA1] }

/-- A concrete execution record used to exercise
`get_execution_history`. -/
def exRecA : SOPExecution :=
  { execution_id := "scenario_a_1"
    sop_id := "scenario_a"
    sop_version := "1.0.0"
    start_time := "2024-01-01T00:00:00"
    end_time := some "2024-01-01T00:00:01"
    duration_seconds := 1
    status := StepStatus.completed
    steps_completed := 2
    steps_total := 2
    success_rate := 100 }

/-- A second concrete execution record for a different SOP. -/
def exRecB : SOPExecution :=
  { exRecA with
      execution_id := "scenario_b_1"
      sop_id := "scenario_b"
      status := StepStatus.failed
      steps_completed := 0
      success_rate := 0 }

/-- A field-for-field copy of `stepA1`, written out literally, used to
exercise hash determinism on syntactically distinct but fieldwise equal
step records. -/
def stepA1copy : SOPStep :=
  { step_number := 1
    name := "Echo one"
    description := "Print the number one to stdout"
    command := "echo 1"
    component := "demo"
    expected_output := none
    validation_check := none
    rollback_command := none
    timeout_seconds := 300
    retry_on_failure := true
    max_retries := 3
    dependencies := []
    tags := [] }

/-- Model of `updateFirst` leaves the list unchanged when no element has the
targeted step number (the silent skip of `refine_sop`). -/
theorem updateFirst_no_match (steps : List SOPStep) (n : Nat) (f : SOPStep → SOPStep)
    (h : ∀ s ∈ steps, s.step_number ≠ n) : updateFirst steps n f = steps := by
  induction steps with
  | nil => rfl
  | cons s rest ih =>
    simp only [updateFirst]
    rw [if_neg (h s (by simp)), ih (fun t ht => h t (by simp [ht]))]

/-- Model of `updateFirst` preserves list length. -/
theorem updateFirst_length (steps : List SOPStep) (n : Nat) (f : SOPStep → SOPStep) :
    (updateFirst steps n f).length = steps.length := by
  induction steps with
  | nil => rfl
  | cons s rest ih =>
    simp only [updateFirst]
    by_cases hc : s.step_number = n <;> simp [hc, ih]

/-- A position whose step number differs from the target is untouched by
`updateFirst`. -/
theorem updateFirst_get_ne (steps : List SOPStep) (n : Nat) (f : SOPStep → SOPStep)
    (i : Nat) (s : SOPStep) (hs : steps.get? i = some s) (hne : s.step_number ≠ n) :
    (updateFirst steps n f).get? i = some s := by
  induction steps generalizing i with
  | nil => simp at hs
  | cons hd tl ih =>
    cases i with
    | zero =>
      simp only [List.get?] at hs
      cases hs
      simp only [updateFirst]
      rw [if_neg hne]
      rfl
    | succ j =>
      simp only [List.get?] at hs
      simp only [updateFirst]
      by_cases hc : hd.step_number = n
      · rw [if_pos hc]; exact hs
      · rw [if_neg hc]; exact ih j hs

/-- The update fold of `refine_sop` preserves list length. -/
theorem foldlUpdate_length (updates : List (Nat × List FieldUpdate)) (steps : List SOPStep) :
    (updates.foldl (fun st p => updateFirst st p.1 (fun q => p.2.foldl applyChange q))
        steps).length = steps.length := by
  induction updates generalizing steps with
  | nil => rfl
  | cons u rest ih =>
    simp only [List.foldl_cons]
    rw [ih, updateFirst_length]

/-- A position whose step number matches no updates key is untouched by
the update fold of `refine_sop`. -/
theorem foldlUpdate_get_ne (updates : List (Nat × List FieldUpdate)) (steps : List SOPStep)
    (i : Nat) (s : SOPStep) (hs : steps.get? i = some s)
    (hne : ∀ p ∈ updates, s.step_number ≠ p.1) :
    (updates.foldl (fun st p => updateFirst st p.1 (fun q => p.2.foldl applyChange q))
        steps).get? i = some s := by
  induction updates generalizing steps with
  | nil => exact hs
  | cons u rest ih =>
    simp only [List.foldl_cons]
    exact ih _ (updateFirst_get_ne _ _ _ _ _ hs (hne u (by simp)))
      (fun p hp => hne p (by simp [hp]))

/-- Fieldwise-equal steps are equal records. -/
theorem stepFieldsEq_eq (s t : SOPStep) (h : stepFieldsEq s t) : s = t := by
  obtain ⟨h1, h2, h3, h4, h5, h6, h7, h8, h9, h10, h11, h12, h13⟩ := h
  cases s; cases t
  simp_all

/-- Per-call counter arithmetic of `execute_sop`: `execution_count` rises
by one and exactly one of the outcome counters rises by one. -/
theorem exec_counters (env : CmdEnv) (sop : SOPDefinition) (d : Bool) :
    (executeSop env sop d).1.execution_count = sop.execution_count + 1 ∧
    (((executeSop env sop d).1.success_count = sop.success_count + 1 ∧
      (executeSop env sop d).1.failure_count = sop.failure_count) ∨
     ((executeSop env sop d).1.success_count = sop.success_count ∧
      (executeSop env sop d).1.failure_count = sop.failure_count + 1)) := by
  refine ⟨rfl, ?_⟩
  by_cases h : (execLoop env d [] sop.steps ⟨0, [], []⟩).failedSteps = []
  · left
    constructor <;> simp [executeSop, h]
  · right
    constructor <;> simp [executeSop, h]

/-- The counter invariant is preserved by any sequence of `execute_sop`
calls. -/
theorem runAll_invariant (calls : List (CmdEnv × Bool)) (sop : SOPDefinition)
    (h : sop.success_count + sop.failure_count = sop.execution_count) :
    (runAll calls sop).success_count + (runAll calls sop).failure_count =
      (runAll calls sop).execution_count := by
  induction calls generalizing sop with
  | nil => exact h
  | cons c rest ih =>
    simp only [runAll, List.foldl_cons] at *
    apply ih
    rcases exec_counters c.1 sop c.2 with ⟨h1, h2 | h2⟩ <;> omega

/-- The clean Scenario A SOP produces no findings at all. -/
theorem collectFindings_sopA : collectFindings sopA none = [] := by decide

/-- With empty prerequisites, the only finding of the Scenario A SOP is the
clarity suggestion. -/
theorem collectFindings_sopA0 : collectFindings sopA0 none = clarityFindings sopA0 := by
  decide

/-- The findings of the Scenario B SOP are exactly its logic findings. -/
theorem collectFindings_sopScenB : collectFindings sopScenB none = logicFindings sopScenB := by
  decide

/-- C1: in `execute(sop, dry_run)` the dependency check is supposed to
pass for a step all of whose declared dependencies produced output
earlier in the same execution.  The code instead tests membership in
`execution.output`, which is only assigned after the loop, so in the
concrete dry run of the Scenario A SOP step 1 completes successfully yet
step 2 — whose only dependency is step 1 — is marked failed and its
command is never invoked (no output entry for key 2 is ever created). -/
theorem c1_dependency_check_uses_final_output :
    (executeSop dummyEnv sopA true).2.steps_completed = 1 ∧
    (executeSop dummyEnv sopA true).2.failed_steps = [2] ∧
    (executeSop dummyEnv sopA true).2.status = StepStatus.failed ∧
    dictHasKey (executeSop dummyEnv sopA true).2.output 1 = true ∧
    dictHasKey (executeSop dummyEnv sopA true).2.output 2 = false := by
  refine ⟨?_, ?_, ?_, ?_, ?_⟩ <;> decide

/-- C2 counterexample: for the Scenario B SOP (step 2 declares
`deps:[3]`, everything else clean) validation does not produce exactly
one logic-category error with `quality_score = 90`: both `if` branches
of `_check_logic` fire for the same dependency value, giving two logic
errors and a quality score of 80. -/
theorem c2_counterexample :
    (validateSopComprehensive "validator" sopScenB none "ts" "now").findings.countP
        (fun f => f.category == "logic" && f.finding_type == "error") = 2 ∧
    (validateSopComprehensive "validator" sopScenB none "ts" "now").overall_quality_score ≠ 90 := by
  constructor
  · decide
  · show qualityScoreOf (collectFindings sopScenB none) ≠ 90
    rw [collectFindings_sopScenB]
    simp +decide [logicFindings, sopScenB, sopA, stepA1, stepB2, stepA2, qualityScoreOf,
      findingDeduct]
    norm_num [pyMaxQ]

/-- C2 amended: the Scenario B SOP yields exactly two logic-category
error findings of severity 5 each (one "references nonexistent step",
one "circular/forward dependency"), error count 2, quality score 80, and
`is_approved = false`. -/
theorem c2_amended_two_logic_errors :
    (validateSopComprehensive "validator" sopScenB none "ts" "now").findings.map
        (fun f => (f.category, f.finding_type, f.severity)) =
      [("logic", "error", 5), ("logic", "error", 5)] ∧
    (validateSopComprehensive "validator" sopScenB none "ts" "now").errors = 2 ∧
    (validateSopComprehensive "validator" sopScenB none "ts" "now").overall_quality_score = 80 ∧
    (validateSopComprehensive "validator" sopScenB none "ts" "now").is_approved = false := by
  refine ⟨by decide, by decide, ?_, ?_⟩
  · show qualityScoreOf (collectFindings sopScenB none) = 80
    rw [collectFindings_sopScenB]
    simp +decide [logicFindings, sopScenB, sopA, stepA1, stepB2, stepA2, qualityScoreOf,
      findingDeduct]
    norm_num [pyMaxQ]
  · show (((collectFindings sopScenB none).countP (fun f => f.finding_type == "error") == 0) &&
      decide ((80 : ℚ) ≤ qualityScoreOf (collectFindings sopScenB none))) = false
    rw [collectFindings_sopScenB]
    decide

/-- C3 counterexample: approval is not equivalent to
"no errors ∧ score ≥ 80 ∧ self-test succeeded": the clean Scenario A SOP
is approved although the own dry-run self-test execution of the validator
fails (the dependency check of step 2 consults the post-loop output map). -/
theorem c3_counterexample :
    (validateSopComprehensive "validator" sopA none "ts" "now").is_approved = true ∧
    (executeSop dummyEnv sopA true).2.status ≠ StepStatus.completed := by
  constructor
  · show (((collectFindings sopA none).countP (fun f => f.finding_type == "error") == 0) &&
      decide ((80 : ℚ) ≤ qualityScoreOf (collectFindings sopA none))) = true
    rw [collectFindings_sopA]
    norm_num [qualityScoreOf, pyMaxQ]
  · decide

/-- C3 amended: `validate_sop_comprehensive` approves exactly when the
report carries zero error findings and a quality score of at least 80 —
the dry-run self-test plays no part in `is_approved` (it only gates the
separate boolean `is_valid` verdict of the agent-level `validate_sop`). -/
theorem c3_amended_approval_ignores_selftest (validatorName : String)
    (sop : SOPDefinition) (er : Option ExecResults) (ts now : String) :
    (validateSopComprehensive validatorName sop er ts now).is_approved = true ↔
      ((validateSopComprehensive validatorName sop er ts now).findings.countP
          (fun f => f.finding_type == "error") = 0 ∧
        (80 : ℚ) ≤ (validateSopComprehensive validatorName sop er ts now).overall_quality_score) := by
  unfold validateSopComprehensive
  simp [Bool.and_eq_true, beq_iff_eq, decide_eq_true_eq]

/-- C4 counterexample: `refine(sop, updates)` with an updates key (step
number 2) matching no step of the one-step SOP does not fail — it reports
success and even bumps the patch version, leaving the steps untouched. -/
theorem c4_counterexample :
    (refineSop sopOne [(2, [FieldUpdate.setName "x"])] "t" "validator").1 = true ∧
    (refineSop sopOne [(2, [FieldUpdate.setName "x"])] "t" "validator").2.1 =
      "SOP refined to v1.0.1" ∧
    (refineSop sopOne [(2, [FieldUpdate.setName "x"])] "t" "validator").2.2.steps =
      sopOne.steps := by
  refine ⟨?_, ?_, ?_⟩ <;> decide

/-- C4 amended: an updates key matching no step number is silently
skipped: whenever the number of every step differs from the key and the
version string is well formed, `refine_sop` reports success with the
bumped patch version and returns the steps unchanged. -/
theorem c4_amended_unknown_step_ignored (sop : SOPDefinition) (n : Nat)
    (chs : List FieldUpdate) (now refinedBy v' : String)
    (hn : ∀ s ∈ sop.steps, s.step_number ≠ n)
    (hv : bumpPatch sop.version = some v') :
    (refineSop sop [(n, chs)] now refinedBy).1 = true ∧
    (refineSop sop [(n, chs)] now refinedBy).2.1 = "SOP refined to v" ++ v' ∧
    (refineSop sop [(n, chs)] now refinedBy).2.2.steps = sop.steps ∧
    (refineSop sop [(n, chs)] now refinedBy).2.2.version = v' := by
  unfold refineSop
  simp only [List.foldl_cons, List.foldl_nil]
  rw [updateFirst_no_match sop.steps n _ hn, hv]
  exact ⟨rfl, rfl, rfl, rfl⟩

/-- C4 witness: the amended statement at the concrete one-step SOP with
unknown target step 3. -/
theorem c4_witness :
    (refineSop sopOne [(3, [FieldUpdate.setDescription "a longer text"])] "t" "validator").1 =
      true ∧
    (refineSop sopOne [(3, [FieldUpdate.setDescription "a longer text"])] "t"
        "validator").2.2.steps = sopOne.steps := by
  have h := c4_amended_unknown_step_ignored sopOne 3 [FieldUpdate.setDescription "a longer text"]
    "t" "validator" "1.0.1" (by decide) (by rfl)
  exact ⟨h.1, h.2.2.1⟩

/-- C5 counterexample: `refine` is not restricted to the eight declared
mutable fields: updating step 1 of the one-step SOP with a
`retry_on_failure` entry flips that field from `true` to `false`,
although the claim says `retry_on_failure` remains unchanged. -/
theorem c5_counterexample :
    sopOne.steps.map (fun s => s.retry_on_failure) = [true] ∧
    (refineSop sopOne [(1, [FieldUpdate.setRetryOnFailure false])] "t"
        "validator").2.2.steps.map (fun s => s.retry_on_failure) = [false] := by
  exact ⟨rfl, rfl⟩

/-- C5 amended: `refine` applies exactly the supplied `setattr` changes
to the first step matching each targeted step number — any existing
`SOPStep` field can be assigned, not only the eight declared mutable
ones, and keys naming no existing field are ignored — while the step
list keeps its length, and every step whose number is targeted by no
updates key is returned unchanged. -/
theorem c5_amended_refine_frame (sop : SOPDefinition)
    (updates : List (Nat × List FieldUpdate)) (now refinedBy : String) :
    ((refineSop sop updates now refinedBy).2.2.steps.length = sop.steps.length) ∧
    (∀ i s, sop.steps.get? i = some s → (∀ p ∈ updates, s.step_number ≠ p.1) →
      (refineSop sop updates now refinedBy).2.2.steps.get? i = some s) ∧
    (∀ s : SOPStep, ∀ chs : List FieldUpdate,
      (∀ u ∈ chs, ∃ k, u = FieldUpdate.unknownField k) → chs.foldl applyChange s = s) := by
  refine ⟨?_, ?_, ?_⟩
  · unfold refineSop
    cases hb : bumpPatch sop.version with
    | none => simpa using foldlUpdate_length updates sop.steps
    | some v' => simpa using foldlUpdate_length updates sop.steps
  · intro i s hs hne
    unfold refineSop
    cases hb : bumpPatch sop.version with
    | none => simpa using foldlUpdate_get_ne updates sop.steps i s hs hne
    | some v' => simpa using foldlUpdate_get_ne updates sop.steps i s hs hne
  · intro s chs h
    induction chs generalizing s with
    | nil => rfl
    | cons u rest ih =>
      obtain ⟨k, hk⟩ := h u (by simp)
      subst hk
      simpa using ih s (fun u hu => h u (by simp [hu]))

/-- C5 witness: the amended frame at the concrete Scenario A SOP with an
update targeting the absent step number 5. -/
theorem c5_witness :
    (refineSop sopA [(5, [FieldUpdate.setName "x"])] "t" "validator").2.2.steps.get? 0 =
      some stepA1 ∧
    ([FieldUpdate.unknownField "owner"].foldl applyChange stepA2 = stepA2) := by
  have h := c5_amended_refine_frame sopA [(5, [FieldUpdate.setName "x"])] "t" "validator"
  exact ⟨h.2.1 0 stepA1 rfl (by decide),
    h.2.2 stepA2 [FieldUpdate.unknownField "owner"] (by simp)⟩

/-- C6: for the Scenario C SOP (two steps, the first with
`retry_on_failure = false`), whenever the command of step 1 fails, `execute()`
stops immediately: `steps_completed = 0`, `steps_total = 2`,
`status = failed`, `success_rate = 0.0`, only step 1 is recorded as
failed, and step 2 is never attempted (no output entry for key 2). -/
theorem c6_stop_on_first_failure (env : CmdEnv)
    (hfail : (executeStep env stepC1 false).1 = false) :
    (executeSop env sopC false).2.steps_completed = 0 ∧
    (executeSop env sopC false).2.steps_total = 2 ∧
    (executeSop env sopC false).2.status = StepStatus.failed ∧
    (executeSop env sopC false).2.success_rate = 0 ∧
    (executeSop env sopC false).2.failed_steps = [1] ∧
    dictHasKey (executeSop env sopC false).2.output 2 = false := by
  rcases hr : executeStep env stepC1 false with ⟨b, m⟩
  rw [hr] at hfail
  simp at hfail
  subst hfail
  have hdep : stepC1.dependencies = [] := rfl
  have hretry : stepC1.retry_on_failure = false := rfl
  have hnum : stepC1.step_number = 1 := rfl
  have hloop : execLoop env false [] [stepC1, stepC2] ⟨0, [], []⟩ =
      ⟨0, [1], [(1, m)]⟩ := by
    simp [execLoop, hdep, hr, hretry, hnum, dictInsert]
  have hsteps : sopC.steps = [stepC1, stepC2] := rfl
  refine ⟨?_, ?_, ?_, ?_, ?_, ?_⟩ <;>
    simp only [executeSop, hsteps, hloop] <;>
    simp [dictHasKey] <;> norm_num

/-- C6 witness: the concrete environment whose collaborator always exits
with return code 1 makes step 1 fail, and the conclusions of the theorem hold
there. -/
theorem c6_witness :
    (executeStep failEnv stepC1 false).1 = false ∧
    (executeSop failEnv sopC false).2.steps_completed = 0 ∧
    (executeSop failEnv sopC false).2.steps_total = 2 ∧
    (executeSop failEnv sopC false).2.status = StepStatus.failed := by
  have h := c6_stop_on_first_failure failEnv (by decide)
  exact ⟨by decide, h.1, h.2.1, h.2.2.1⟩

/-- C7: `execute()` always increments `execution_count` by exactly 1 and
exactly one of `success_count`/`failure_count` by 1; consequently, for a
SOP created with all counters zero, after any sequence of `execute()`
calls `success_count + failure_count = execution_count`. -/
theorem c7_counter_invariant :
    (∀ (env : CmdEnv) (sop : SOPDefinition) (d : Bool),
      (executeSop env sop d).1.execution_count = sop.execution_count + 1 ∧
      (((executeSop env sop d).1.success_count = sop.success_count + 1 ∧
        (executeSop env sop d).1.failure_count = sop.failure_count) ∨
       ((executeSop env sop d).1.success_count = sop.success_count ∧
        (executeSop env sop d).1.failure_count = sop.failure_count + 1))) ∧
    (∀ (calls : List (CmdEnv × Bool)) (sop : SOPDefinition),
      sop.execution_count = 0 → sop.success_count = 0 → sop.failure_count = 0 →
      (runAll calls sop).success_count + (runAll calls sop).failure_count =
        (runAll calls sop).execution_count) := by
  constructor
  · intro env sop d
    exact exec_counters env sop d
  · intro calls sop h1 h2 h3
    exact runAll_invariant calls sop (by omega)

/-- C7 witness: the theorem applied at the zero-counter Scenario A SOP
and a concrete two-call sequence. -/
theorem c7_witness :
    (executeSop dummyEnv sopA true).1.execution_count = sopA.execution_count + 1 ∧
    (runAll [(dummyEnv, true), (failEnv, false)] sopA).success_count +
        (runAll [(dummyEnv, true), (failEnv, false)] sopA).failure_count =
      (runAll [(dummyEnv, true), (failEnv, false)] sopA).execution_count := by
  exact ⟨(c7_counter_invariant.1 dummyEnv sopA true).1,
    c7_counter_invariant.2 [(dummyEnv, true), (failEnv, false)] sopA rfl rfl rfl⟩

/-- C8 counterexample: a two-step SOP with exactly the Scenario A steps
and adequate (≥ 10 character) step descriptions need not score 100: with
an empty prerequisites list — which is what the create operation
always produces — the clarity suggestion deducts 0.5, so the score is
99.5, although there are indeed 0 errors and the report is approved. -/
theorem c8_counterexample :
    (validateSopComprehensive "validator" sopA0 none "ts" "now").errors = 0 ∧
    (validateSopComprehensive "validator" sopA0 none "ts" "now").is_approved = true ∧
    (validateSopComprehensive "validator" sopA0 none "ts" "now").overall_quality_score ≠ 100 := by
  refine ⟨by decide, ?_, ?_⟩
  · show (((collectFindings sopA0 none).countP (fun f => f.finding_type == "error") == 0) &&
      decide ((80 : ℚ) ≤ qualityScoreOf (collectFindings sopA0 none))) = true
    rw [collectFindings_sopA0]
    simp +decide [clarityFindings, sopA0, sopA, stepA1, stepA2, qualityScoreOf, findingDeduct]
    norm_num [pyMaxQ]
  · show qualityScoreOf (collectFindings sopA0 none) ≠ 100
    rw [collectFindings_sopA0]
    simp +decide [clarityFindings, sopA0, sopA, stepA1, stepA2, qualityScoreOf, findingDeduct]
    norm_num [pyMaxQ]

/-- C8 amended: the Scenario A steps with adequate step descriptions
yield 0 error findings and `is_approved = true`; the quality score is
exactly 100 when the SOP description is at least 20 characters and the
prerequisites list is nonempty (as in `sopA`), and 99.5 when the
prerequisites list is empty (as in `sopA0`). -/
theorem c8_amended_scenario_a :
    (validateSopComprehensive "validator" sopA none "ts" "now").total_findings = 0 ∧
    (validateSopComprehensive "validator" sopA none "ts" "now").errors = 0 ∧
    (validateSopComprehensive "validator" sopA none "ts" "now").overall_quality_score = 100 ∧
    (validateSopComprehensive "validator" sopA none "ts" "now").is_approved = true ∧
    (validateSopComprehensive "validator" sopA0 none "ts" "now").errors = 0 ∧
    (validateSopComprehensive "validator" sopA0 none "ts" "now").overall_quality_score = 199 / 2 := by
  refine ⟨by decide, by decide, ?_, ?_, by decide, ?_⟩
  · show qualityScoreOf (collectFindings sopA none) = 100
    rw [collectFindings_sopA]
    norm_num [qualityScoreOf, pyMaxQ]
  · show (((collectFindings sopA none).countP (fun f => f.finding_type == "error") == 0) &&
      decide ((80 : ℚ) ≤ qualityScoreOf (collectFindings sopA none))) = true
    rw [collectFindings_sopA]
    norm_num [qualityScoreOf, pyMaxQ]
  · show qualityScoreOf (collectFindings sopA0 none) = 199 / 2
    rw [collectFindings_sopA0]
    simp +decide [clarityFindings, sopA0, sopA, stepA1, stepA2, qualityScoreOf, findingDeduct]
    norm_num [pyMaxQ]

/-- C9: `content_hash` is a pure, deterministic function of the ordered
step sequence alone — fieldwise-identical step sequences hash
identically, independently of any other SOP state (the hash takes only
the step list as input) — and a successful `refine` stores exactly the
hash recomputed from the updated steps. -/
theorem c9_content_hash_pure :
    (∀ steps1 steps2 : List SOPStep, List.Forall₂ stepFieldsEq steps1 steps2 →
      computeHash steps1 = computeHash steps2) ∧
    (∀ (sop : SOPDefinition) (updates : List (Nat × List FieldUpdate)) (now refinedBy : String),
      (refineSop sop updates now refinedBy).1 = true →
      (refineSop sop updates now refinedBy).2.2.content_hash =
        computeHash (refineSop sop updates now refinedBy).2.2.steps) := by
  constructor
  · intro steps1 steps2 h
    have he : steps1 = steps2 := by
      induction h with
      | nil => rfl
      | cons hh ht ih => rw [stepFieldsEq_eq _ _ hh, ih]
    rw [he]
  · intro sop updates now refinedBy h
    unfold refineSop at h ⊢
    cases hb : bumpPatch sop.version with
    | none => rw [hb] at h; simp at h
    | some v' => rfl

/-- C9 witness: hash determinism at two syntactically distinct but
fieldwise equal singleton step lists, and hash recomputation at a
concrete successful refinement. -/
theorem c9_witness :
    computeHash [stepA1] = computeHash [stepA1copy] ∧
    (refineSop sopOne [(1, [FieldUpdate.setCommand "echo one"])] "t"
        "validator").2.2.content_hash =
      computeHash (refineSop sopOne [(1, [FieldUpdate.setCommand "echo one"])] "t"
        "validator").2.2.steps := by
  constructor
  · exact c9_content_hash_pure.1 [stepA1] [stepA1copy]
      (List.Forall₂.cons (by decide) List.Forall₂.nil)
  · exact c9_content_hash_pure.2 sopOne [(1, [FieldUpdate.setCommand "echo one"])] "t"
      "validator" (by decide)

/-- C10: for every history, optional id filter and `limit ≥ 1`,
`get_execution_history` returns a suffix of the matching records (the
most recent ones, in insertion order) of length `min limit count`; for
`limit = 0` it returns all matching records instead of none
(`history[-0:]` is the whole list). -/
theorem c10_history_limit (history : List SOPExecution) (sopId : Option String)
    (limit : Nat) :
    (1 ≤ limit →
      (getExecutionHistory history sopId limit).length =
        min limit (matchingRecords history sopId).length ∧
      getExecutionHistory history sopId limit <:+ matchingRecords history sopId) ∧
    (limit = 0 →
      getExecutionHistory history sopId limit = matchingRecords history sopId) := by
  constructor
  · intro h1
    unfold getExecutionHistory pyLastSlice
    rw [if_neg (by omega)]
    refine ⟨?_, List.drop_suffix _ _⟩
    rw [List.length_drop]
    omega
  · intro h0
    subst h0
    unfold getExecutionHistory pyLastSlice
    simp

/-- C10 witness: the theorem instantiated at a concrete two-record
history, once with `limit = 1` and an id filter, once with `limit = 0`. -/
theorem c10_witness :
    (getExecutionHistory [exRecA, exRecB] (some "scenario_a") 1).length =
      min 1 (matchingRecords [exRecA, exRecB] (some "scenario_a")).length ∧
    getExecutionHistory [exRecA, exRecB] none 0 = matchingRecords [exRecA, exRecB] none := by
  exact ⟨((c10_history_limit [exRecA, exRecB] (some "scenario_a") 1).1 (by decide)).1,
    (c10_history_limit [exRecA, exRecB] none 0).2 rfl⟩
